import Mathlib

/-!
# Verification of the ompay.js payment-gateway client

A shallow embedding of the ompay.js SDK (an unofficial Node.js client for the
OMPAY payment gateway) together with proofs of its specified properties.

The embedding follows the TypeScript source:
* `src/client.ts` — `OMPayClient`: construction/validation, `createCheckout`,
  `checkStatus`, `verifySignature`, `verifySignatureOrThrow`, accessors;
* `src/errors.ts` — the `OMPayError` taxonomy and `OMPayError.fromAxiosError`;
* `src/types.ts` — the request/response records.

JavaScript peculiarities that matter to the properties are modelled
explicitly: optional fields are `Option`s, string truthiness (`!s` is true
exactly when the string is empty or the field is absent), nullish
coalescing (`??` falls through only on `undefined`/`null`), and object
spreads guarded by truthiness (`...(x && { x })`).

The signature routines call Node's `createHmac("sha256", secret)`; that
external primitive is embedded as a faithful executable HMAC-SHA-256
(FIPS 180-4 / RFC 2104) over UTF-8 bytes, rendered as lowercase hex, in
namespace `Sha256` below.

Throwing methods are embedded as `Except OMPayError` valued functions; an
`Except.error` result models a thrown `OMPayError` before (for validation)
or instead of any network activity, and an `Except.ok` result carries,
for `createCheckout`, the exact JSON payload the method would POST, and for
`checkStatus`, the mapping of a given 2xx response body.
-/

namespace Sha256

/-- Truncation to a 32-bit word, `n % 2^32`. -/
def w32 (n : Nat) : Nat := n % 4294967296

/-- Right rotation of a 32-bit word by `n` places (for `0 < n < 32` and
`x < 2^32` the two summands occupy disjoint bit ranges). -/
def rotr (n x : Nat) : Nat := x / 2 ^ n + w32 (x * 2 ^ (32 - n))

/-- Logical right shift. -/
def shr (n x : Nat) : Nat := x / 2 ^ n

/-- Bitwise complement within 32 bits (valid for `x < 2^32`). -/
def not32 (x : Nat) : Nat := 4294967295 - x

/-- SHA-256 `Ch` function. -/
def ch (x y z : Nat) : Nat := (x &&& y) ^^^ (not32 x &&& z)

/-- SHA-256 `Maj` function. -/
def maj (x y z : Nat) : Nat := (x &&& y) ^^^ (x &&& z) ^^^ (y &&& z)

/-- SHA-256 `Σ₀`. -/
def bigSigma0 (x : Nat) : Nat := rotr 2 x ^^^ rotr 13 x ^^^ rotr 22 x

/-- SHA-256 `Σ₁`. -/
def bigSigma1 (x : Nat) : Nat := rotr 6 x ^^^ rotr 11 x ^^^ rotr 25 x

/-- SHA-256 `σ₀`. -/
def smallSigma0 (x : Nat) : Nat := rotr 7 x ^^^ rotr 18 x ^^^ shr 3 x

/-- SHA-256 `σ₁`. -/
def smallSigma1 (x : Nat) : Nat := rotr 17 x ^^^ rotr 19 x ^^^ shr 10 x

/-- The 64 SHA-256 round constants. -/
def K : List Nat :=
  [1116352408, 1899447441, 3049323471, 3921009573, 961987163,
   1508970993, 2453635748, 2870763221, 3624381080, 310598401,
   607225278, 1426881987, 1925078388, 2162078206, 2614888103,
   3248222580, 3835390401, 4022224774, 264347078, 604807628,
   770255983, 1249150122, 1555081692, 1996064986, 2554220882,
   2821834349, 2952996808, 3210313671, 3336571891, 3584528711,
   113926993, 338241895, 666307205, 773529912, 1294757372,
   1396182291, 1695183700, 1986661051, 2177026350, 2456956037,
   2730485921, 2820302411, 3259730800, 3345764771, 3516065817,
   3600352804, 4094571909, 275423344, 430227734, 506948616,
   659060556, 883997877, 958139571, 1322822218, 1537002063,
   1747873779, 1955562222, 2024104815, 2227730452, 2361852424,
   2428436474, 2756734187, 3204031479, 3329325298]

/-- The eight working words of the compression state. -/
structure Hash where
  a : Nat
  b : Nat
  c : Nat
  d : Nat
  e : Nat
  f : Nat
  g : Nat
  h : Nat
deriving DecidableEq

/-- The SHA-256 initial hash value. -/
def initH : Hash :=
  ⟨1779033703, 3144134277, 1013904242, 2773480762,
   1359893119, 2600822924, 528734635, 1541459225⟩

/-- Pad a byte message per FIPS 180-4: append `0x80`, zero bytes up to
56 mod 64, then the bit length as eight big-endian bytes. -/
def padMessage (msg : List Nat) : List Nat :=
  let len := msg.length
  let zeros := (119 - len % 64) % 64
  let bitLen := 8 * len
  msg ++ [0x80] ++ List.replicate zeros 0 ++
    [bitLen / 2 ^ 56 % 256, bitLen / 2 ^ 48 % 256,
     bitLen / 2 ^ 40 % 256, bitLen / 2 ^ 32 % 256,
     bitLen / 2 ^ 24 % 256, bitLen / 2 ^ 16 % 256,
     bitLen / 2 ^ 8 % 256, bitLen % 256]

/-- The sixteen big-endian 32-bit words of one 64-byte block. -/
def wordsOfBlock (block : List Nat) : List Nat :=
  (List.range 16).map fun i =>
    block.getD (4 * i) 0 * 2 ^ 24 + block.getD (4 * i + 1) 0 * 2 ^ 16 +
      block.getD (4 * i + 2) 0 * 2 ^ 8 + block.getD (4 * i + 3) 0

/-- Extend the message schedule by `n` further words. -/
def extendSchedule : Nat → List Nat → List Nat
  | 0, ws => ws
  | n + 1, ws =>
      let t := ws.length
      let nw := w32 (smallSigma1 (ws.getD (t - 2) 0) + ws.getD (t - 7) 0 +
        smallSigma0 (ws.getD (t - 15) 0) + ws.getD (t - 16) 0)
      extendSchedule n (ws ++ [nw])

/-- One SHA-256 compression round; `wk` pairs the schedule word with the
round constant. -/
def round (st : Hash) (wk : Nat × Nat) : Hash :=
  let t1 := w32 (st.h + bigSigma1 st.e + ch st.e st.f st.g + wk.2 + wk.1)
  let t2 := w32 (bigSigma0 st.a + maj st.a st.b st.c)
  ⟨w32 (t1 + t2), st.a, st.b, st.c, w32 (st.d + t1), st.e, st.f, st.g⟩

/-- Process one 64-byte block: 64 rounds, then add into the chaining value. -/
def compress (st : Hash) (block : List Nat) : Hash :=
  let ws := extendSchedule 48 (wordsOfBlock block)
  let r := (ws.zip K).foldl round st
  ⟨w32 (st.a + r.a), w32 (st.b + r.b), w32 (st.c + r.c), w32 (st.d + r.d),
   w32 (st.e + r.e), w32 (st.f + r.f), w32 (st.g + r.g), w32 (st.h + r.h)⟩

/-- Fold the compression over `n` consecutive 64-byte blocks of `l`. -/
def processBlocks : Nat → List Nat → Hash → Hash
  | 0, _, st => st
  | n + 1, l, st => processBlocks n (l.drop 64) (compress st (l.take 64))

/-- The four big-endian bytes of a 32-bit word. -/
def wordBytes (w : Nat) : List Nat :=
  [w / 2 ^ 24 % 256, w / 2 ^ 16 % 256, w / 2 ^ 8 % 256, w % 256]

/-- The 32 digest bytes of a final state. -/
def digestBytes (st : Hash) : List Nat :=
  wordBytes st.a ++ wordBytes st.b ++ wordBytes st.c ++ wordBytes st.d ++
    wordBytes st.e ++ wordBytes st.f ++ wordBytes st.g ++ wordBytes st.h

/-- SHA-256 of a byte message. -/
def sha256 (msg : List Nat) : List Nat :=
  let padded := padMessage msg
  digestBytes (processBlocks (padded.length / 64) padded initH)

/-- HMAC-SHA-256 (RFC 2104): keys longer than the 64-byte block are hashed,
shorter keys are zero-padded; inner pad `0x36`, outer pad `0x5c`. -/
def hmacSha256 (key msg : List Nat) : List Nat :=
  let k0 := if 64 < key.length then sha256 key else key
  let kpad := k0 ++ List.replicate (64 - k0.length) 0
  let ipad := kpad.map fun b => b ^^^ 0x36
  let opad := kpad.map fun b => b ^^^ 0x5c
  sha256 (opad ++ sha256 (ipad ++ msg))

/-- A lowercase hexadecimal digit. -/
def hexDigit (n : Nat) : Char :=
  if n < 10 then Char.ofNat (48 + n) else Char.ofNat (87 + n)

/-- Two lowercase hex characters of one byte. -/
def byteHex (b : Nat) : List Char := [hexDigit (b / 16), hexDigit (b % 16)]

/-- Lowercase hex characters of a byte list. -/
def bytesHexChars (bs : List Nat) : List Char :=
  bs.foldr (fun b acc => byteHex b ++ acc) []

/-- Lowercase hex string of a byte list (the `digest("hex")` rendering). -/
def bytesToHex (bs : List Nat) : String := String.mk (bytesHexChars bs)

/-- UTF-8 bytes of a string, as Node's `update(string)` consumes it. -/
def strBytes (s : String) : List Nat := s.toUTF8.toList.map UInt8.toNat

/-- `createHmac("sha256", key).update(msg).digest("hex")`: HMAC-SHA-256 over
UTF-8 bytes rendered as lowercase hexadecimal. -/
def hmacSha256Hex (key msg : String) : String :=
  bytesToHex (hmacSha256 (strBytes key) (strBytes msg))

end Sha256

namespace OMPay

/-- A JSON value occurring in the gateway response bodies we model. `none`
at a lookup models JavaScript `undefined`; `null` is an explicit value.
(Bodies with nested objects or arrays are outside the model; no claim
depends on them.) -/
inductive JsonVal where
  | str (s : String)
  | num (n : Int)
  | null
deriving DecidableEq

/-- A JSON object / `Record<string, unknown>`, as an association list. -/
abbrev JsonObj := List (String × JsonVal)

/-- Property access `obj["k"]`; `none` models `undefined`. -/
def getProp (o : JsonObj) (k : String) : Option JsonVal := List.lookup k o

/-- `obj["k"]` seen through `??`: both `undefined` and `null` fall through
(nullish coalescing). -/
def getNonNullish (o : JsonObj) (k : String) : Option JsonVal :=
  match List.lookup k o with
  | some JsonVal.null => none
  | some v => some v
  | none => none

/-- JavaScript `String(v)` on the values we model. -/
def jsToString : JsonVal → String
  | .str s => s
  | .num n => toString n
  | .null => "null"

/-- The closed error-code taxonomy `OMPayErrorCode` (src/errors.ts). -/
inductive OMPayErrorCode where
  | AUTHENTICATION_ERROR
  | VALIDATION_ERROR
  | API_ERROR
  | NETWORK_ERROR
  | SIGNATURE_MISMATCH
  | TIMEOUT_ERROR
  | UNKNOWN_ERROR
deriving DecidableEq

/-- The part of an axios HTTP response that `fromAxiosError` reads:
`error.response.status` and `error.response.data`. -/
structure AxiosResponseModel where
  status : Nat
  data : Option JsonObj
deriving DecidableEq

/-- The part of an `AxiosError` that `fromAxiosError` reads: the optional
received response, the transport error code string (axios sets
`"ECONNABORTED"` on timeout), whether `error.request` is set (a request
went out), and the error message. -/
structure AxiosErrorModel where
  response : Option AxiosResponseModel
  code : Option String
  hasRequest : Bool
  message : String
deriving DecidableEq

/-- The `OMPayError` record (src/errors.ts): code, message and the optional
diagnostic fields `statusCode`, `response`, `originalError`. -/
structure OMPayError where
  code : OMPayErrorCode
  message : String
  statusCode : Option Nat := none
  response : Option JsonObj := none
  originalError : Option AxiosErrorModel := none
deriving DecidableEq

/-- `String(responseData?.["message"] ?? fallback)`: optional chaining on a
possibly-undefined body, then nullish coalescing, then stringification. -/
def messageFrom (responseData : Option JsonObj) (fallback : String) : String :=
  match responseData with
  | none => fallback
  | some o =>
      match getNonNullish o "message" with
      | some v => jsToString v
      | none => fallback

/-- `OMPayError.fromAxiosError` (src/errors.ts, lines 37-99): the decision
tree classifying a failed outbound call. -/
def fromAxiosError (error : AxiosErrorModel) : OMPayError :=
  match error.response with
  | some resp =>
      let statusCode := resp.status
      let responseData := resp.data
      if statusCode = 401 ∨ statusCode = 403 then
        { code := .AUTHENTICATION_ERROR
          message := "Authentication failed. Please check your client ID and secret."
          statusCode := some statusCode
          response := responseData
          originalError := some error }
      else if statusCode = 400 ∨ statusCode = 422 then
        { code := .VALIDATION_ERROR
          message := messageFrom responseData "Validation error occurred"
          statusCode := some statusCode
          response := responseData
          originalError := some error }
      else
        { code := .API_ERROR
          message := messageFrom responseData ("API error: " ++ toString statusCode)
          statusCode := some statusCode
          response := responseData
          originalError := some error }
  | none =>
      if error.code = some "ECONNABORTED" then
        { code := .TIMEOUT_ERROR
          message := "Request timed out"
          originalError := some error }
      else if error.hasRequest then
        { code := .NETWORK_ERROR
          message := "Network error. Please check your internet connection."
          originalError := some error }
      else
        { code := .UNKNOWN_ERROR
          message := if error.message = "" then "An unknown error occurred"
                     else error.message
          originalError := some error }

/-- `OMPayError.signatureMismatch` (src/errors.ts, lines 101-107): the fixed
minimal-detail mismatch error. -/
def signatureMismatch : OMPayError :=
  { code := .SIGNATURE_MISMATCH
    message := "Payment signature verification failed. The signature does not match." }

/-- `OMPayConfig` (src/types.ts). `Option` models field absence; a non-string
value in a string field is outside the model (the TypeScript types forbid
it, and the claims quantify over missing/empty/other-string values only). -/
structure OMPayConfig where
  clientId : Option String
  clientSecret : Option String
  environment : Option String
  timeout : Option Int
deriving DecidableEq

/-- JavaScript truthiness of an optional string: absent (`undefined`) and
`""` are falsy, every other string is truthy. -/
def strTruthy : Option String → Bool
  | none => false
  | some s => s != ""

/-- The static environment-to-base-URL table `API_URLS` (src/client.ts). -/
def API_URLS : List (String × String) :=
  [("sandbox", "https://api.uat.gateway.ompay.com"),
   ("production", "https://api.gateway.ompay.com")]

/-- `DEFAULT_TIMEOUT` (src/client.ts). -/
def DEFAULT_TIMEOUT : Int := 30000

/-- The guard `config.environment && !["sandbox","production"].includes(...)`:
a supplied, truthy (non-empty) environment outside the table. -/
def envOffTable (env : Option String) : Bool :=
  match env with
  | none => false
  | some e => (e != "") && !(["sandbox", "production"].contains e)

/-- `OMPayClient.validateConfig` (src/client.ts, lines 48-72); `some e`
models a thrown error, `none` a pass. -/
def validateConfig (config : OMPayConfig) : Option OMPayError :=
  if strTruthy config.clientId = false then
    some { code := .VALIDATION_ERROR
           message := "clientId is required and must be a string" }
  else if strTruthy config.clientSecret = false then
    some { code := .VALIDATION_ERROR
           message := "clientSecret is required and must be a string" }
  else if envOffTable config.environment then
    some { code := .VALIDATION_ERROR
           message := "environment must be either \x27sandbox\x27 or \x27production\x27" }
  else none

/-- The axios instance configuration built at construction (src/client.ts,
lines 35-45). `baseURL` is `Option` because `API_URLS[env]` is an object
lookup that yields `undefined` off the table. -/
structure HttpClientConfig where
  baseURL : Option String
  timeout : Int
  contentType : String
  authUsername : String
  authPassword : String
deriving DecidableEq

/-- The constructed `OMPayClient` state: the three readonly fields plus the
transport configuration. -/
structure OMPayClient where
  clientId : String
  clientSecret : String
  environment : String
  httpClient : HttpClientConfig
deriving DecidableEq

/-- The `OMPayClient` constructor (src/client.ts, lines 26-46): validate,
store credentials, resolve the environment with `?? "sandbox"`, look up the
base URL, and configure the transport (no network call). The `getD ""`
defaults are dead: validation has already ensured both credentials are
present. -/
def mkClient (config : OMPayConfig) : Except OMPayError OMPayClient :=
  match validateConfig config with
  | some e => .error e
  | none =>
      let clientId := config.clientId.getD ""
      let clientSecret := config.clientSecret.getD ""
      let environment := config.environment.getD "sandbox"
      .ok { clientId := clientId
            clientSecret := clientSecret
            environment := environment
            httpClient :=
              { baseURL := List.lookup environment API_URLS
                timeout := config.timeout.getD DEFAULT_TIMEOUT
                contentType := "application/json"
                authUsername := clientId
                authPassword := clientSecret } }

/-- `OMPayClient.getClientId`. -/
def getClientId (c : OMPayClient) : String := c.clientId

/-- `OMPayClient.getEnvironment`. -/
def getEnvironment (c : OMPayClient) : String := c.environment

/-- `OMPayClient.getBaseUrl`: `API_URLS[this.environment]` again, an object
lookup. -/
def getBaseUrl (c : OMPayClient) : Option String :=
  List.lookup c.environment API_URLS

end OMPay

namespace OMPay

/-- `SignaturePayload` (src/types.ts): both fields required, non-empty. -/
structure SignaturePayload where
  orderId : String
  paymentId : String
deriving DecidableEq

/-- `OMPayClient.verifySignature` (src/client.ts, lines 182-204): validate
the payload fields and the signature for truthiness, build the canonical
message `orderId/paymentId`, HMAC it under the client secret, and compare
the lowercase hex digest with the supplied signature by strict equality. -/
def verifySignature (c : OMPayClient) (payload : SignaturePayload)
    (signature : String) : Except OMPayError Bool :=
  if payload.orderId = "" ∨ payload.paymentId = "" then
    .error { code := .VALIDATION_ERROR
             message := "orderId and paymentId are required for signature verification" }
  else if signature = "" then
    .error { code := .VALIDATION_ERROR
             message := "signature is required and must be a string" }
  else
    let dataToSign := payload.orderId ++ "/" ++ payload.paymentId
    let expectedSignature := Sha256.hmacSha256Hex c.clientSecret dataToSign
    .ok (expectedSignature == signature)

/-- `OMPayClient.verifySignatureOrThrow` (src/client.ts, lines 206-210):
propagate validation errors, return unit on a match, throw the fixed
`signatureMismatch` error otherwise. -/
def verifySignatureOrThrow (c : OMPayClient) (payload : SignaturePayload)
    (signature : String) : Except OMPayError Unit :=
  match verifySignature c payload signature with
  | .error e => .error e
  | .ok b => if b then .ok () else .error signatureMismatch

/-- `CustomerInfo` (src/types.ts). -/
structure CustomerInfo where
  phone : String
  email : String
  name : String
deriving DecidableEq

/-- `CreateCheckoutRequest` (src/types.ts). `amount = none` models a request
whose amount is absent (so `typeof amount !== "number"`); `customer = none`
an absent customer object. -/
structure CreateCheckoutRequest where
  amount : Option ℚ
  currency : Option String
  uiMode : Option String
  redirectType : Option String
  customer : Option CustomerInfo
  orderReference : Option String
  metadata : Option JsonObj
deriving DecidableEq

/-- The first guard of `validateCheckoutRequest`:
`typeof request.amount !== "number" || request.amount <= 0`. -/
def amountInvalid : Option ℚ → Bool
  | none => true
  | some a => decide (a ≤ 0)

/-- The last guard of `validateCheckoutRequest`:
`!customer.phone || !customer.email || !customer.name`. -/
def customerFieldsInvalid (customer : CustomerInfo) : Bool :=
  customer.phone == "" || customer.email == "" || customer.name == ""

/-- `OMPayClient.validateCheckoutRequest` (src/client.ts, lines 110-142):
the four fail-fast guards, in source order. -/
def validateCheckoutRequest (request : CreateCheckoutRequest) :
    Option OMPayError :=
  if amountInvalid request.amount then
    some { code := .VALIDATION_ERROR
           message := "amount must be a positive number" }
  else if strTruthy request.currency = false then
    some { code := .VALIDATION_ERROR
           message := "currency is required and must be a string" }
  else
    match request.customer with
    | none =>
        some { code := .VALIDATION_ERROR
               message := "customer information is required" }
    | some customer =>
        if customerFieldsInvalid customer then
          some { code := .VALIDATION_ERROR
                 message := "customer phone, email, and name are required" }
        else none

/-- A value of the flat JSON payload POSTed by `createCheckout`. -/
inductive PayloadVal where
  | num (q : ℚ)
  | str (s : String)
  | obj (o : JsonObj)
deriving DecidableEq

/-- The flat JSON payload, as the ordered list of its keyed entries. -/
abbrev CheckoutPayload := List (String × PayloadVal)

/-- The object literal of src/client.ts, lines 79-89: seven unconditional
entries, then `...(request.orderReference && { orderReference })` (a spread
guarded by string truthiness, so an empty `orderReference` is dropped), then
`...(request.metadata && { metadata })` (objects are always truthy). The
`getD` defaults are dead: `createCheckout` builds the payload only after
validation has ensured amount, currency and customer are present. -/
def buildCheckoutPayload (request : CreateCheckoutRequest) : CheckoutPayload :=
  let customer := request.customer.getD ⟨"", "", ""⟩
  [("amount", PayloadVal.num (request.amount.getD 0)),
   ("currency", PayloadVal.str (request.currency.getD "")),
   ("uiMode", PayloadVal.str (request.uiMode.getD "checkout")),
   ("redirectType", PayloadVal.str (request.redirectType.getD "redirect")),
   ("phone", PayloadVal.str customer.phone),
   ("email", PayloadVal.str customer.email),
   ("name", PayloadVal.str customer.name)]
  ++ (match request.orderReference with
      | some s => if s = "" then [] else [("orderReference", PayloadVal.str s)]
      | none => [])
  ++ (match request.metadata with
      | some m => [("metadata", PayloadVal.obj m)]
      | none => [])

/-- `OMPayClient.createCheckout` up to the outbound POST (src/client.ts,
lines 74-95): validate, then build the payload. An `Except.error` models the
synchronously thrown validation error — no network call happens; an
`Except.ok` carries the exact payload the POST would send. -/
def createCheckout (_c : OMPayClient) (request : CreateCheckoutRequest) :
    Except OMPayError CheckoutPayload :=
  match validateCheckoutRequest request with
  | some e => .error e
  | none => .ok (buildCheckoutPayload request)

/-- The runtime shape `checkStatus` builds (src/types.ts `OrderStatusResponse`
declares `status : PaymentStatus` etc., but every field except `orderId` and
`data` is filled by an unchecked type assertion, so at runtime each is just
the raw body value, possibly absent). -/
structure OrderStatusResult where
  orderId : String
  status : Option JsonVal
  paymentId : Option JsonVal
  amount : Option JsonVal
  currency : Option JsonVal
  paymentDetails : Option JsonVal
  createdAt : Option JsonVal
  updatedAt : Option JsonVal
  data : JsonObj
deriving DecidableEq

/-- `OMPayClient.checkStatus` (src/client.ts, lines 144-180) on a 2xx
response: validate the input `orderId`, then map the received JSON `body`.
`orderId` is `String(data["orderId"] ?? orderId)`; every other field is the
raw body value under an unchecked cast; `data` is the full body. -/
def checkStatus (_c : OMPayClient) (orderId : String) (body : JsonObj) :
    Except OMPayError OrderStatusResult :=
  if orderId = "" then
    .error { code := .VALIDATION_ERROR
             message := "orderId is required and must be a string" }
  else
    .ok { orderId := match getNonNullish body "orderId" with
                     | some v => jsToString v
                     | none => orderId
          status := getProp body "status"
          paymentId := getProp body "paymentId"
          amount := getProp body "amount"
          currency := getProp body "currency"
          paymentDetails := getProp body "paymentDetails"
          createdAt := getProp body "createdAt"
          updatedAt := getProp body "updatedAt"
          data := body }

end OMPay

namespace OMPay

/-- A sample valid configuration used by concrete witnesses. -/
def sampleConfig : OMPayConfig :=
  { clientId := some "id", clientSecret := some "sec"
    environment := some "sandbox", timeout := none }

/-- The client `mkClient sampleConfig` constructs (checked below). -/
def sampleClient : OMPayClient :=
  { clientId := "id", clientSecret := "sec", environment := "sandbox"
    httpClient :=
      { baseURL := some "https://api.uat.gateway.ompay.com"
        timeout := 30000, contentType := "application/json"
        authUsername := "id", authPassword := "sec" } }

end OMPay

/-! ## Theorems -/

namespace Sha256
theorem digestBytes_length (st : Hash) : (digestBytes st).length = 32 := rfl

theorem sha256_length (msg : List Nat) : (sha256 msg).length = 32 :=
  digestBytes_length _

theorem bytesHexChars_length (bs : List Nat) :
    (bytesHexChars bs).length = 2 * bs.length := by
  induction bs with
  | nil => rfl
  | cons b tl ih =>
      have h1 : bytesHexChars (b :: tl) = byteHex b ++ bytesHexChars tl := rfl
      rw [h1, List.length_append, ih, List.length_cons, byteHex]
      simp
      ring

theorem bytesToHex_length (bs : List Nat) :
    (bytesToHex bs).length = 2 * bs.length := by
  simpa [bytesToHex, String.length] using bytesHexChars_length bs

/-- Every HMAC-SHA-256 hex digest has exactly 64 characters. -/
theorem hmacSha256Hex_length (key msg : String) :
    (hmacSha256Hex key msg).length = 64 := by
  simp [hmacSha256Hex, bytesToHex_length, sha256_length, hmacSha256]

/-- In particular the digest is never the empty string. -/
theorem hmacSha256Hex_ne_empty (key msg : String) :
    hmacSha256Hex key msg ≠ "" := by
  intro h
  have := hmacSha256Hex_length key msg
  rw [h] at this
  simp [String.length] at this

end Sha256

namespace OMPay

theorem sampleClient_eq : mkClient sampleConfig = .ok sampleClient := rfl

end OMPay

namespace OMPay

/-- C1: Signature round-trip. For every client (hence every clientSecret)
and non-empty `orderId`/`paymentId`, the lowercase-hex HMAC-SHA-256 of
`orderId/paymentId` keyed by the clientSecret passes `verifySignature`,
and every non-empty signature string other than that digest (in particular
any single-character mutation of it) is rejected. -/
theorem signature_round_trip (c : OMPayClient) (O P : String)
    (hO : O ≠ "") (hP : P ≠ "") :
    verifySignature c ⟨O, P⟩
        (Sha256.hmacSha256Hex c.clientSecret (O ++ "/" ++ P)) = .ok true
    ∧ ∀ sig : String, sig ≠ "" →
        sig ≠ Sha256.hmacSha256Hex c.clientSecret (O ++ "/" ++ P) →
        verifySignature c ⟨O, P⟩ sig = .ok false := by
  constructor
  · simp [verifySignature, hO, hP, Sha256.hmacSha256Hex_ne_empty]
  · intro sig hsig hne
    have hne2 : Sha256.hmacSha256Hex c.clientSecret (O ++ "/" ++ P) ≠ sig :=
      fun h => hne h.symm
    simp [verifySignature, hO, hP, hsig, hne2]

/-- Witness for C1 at `orderId = "a"`, `paymentId = "b"`: the digest
round-trips, and the one-character string `"x"` (which cannot be the
64-character digest) is rejected. -/
theorem signature_round_trip_witness :
    verifySignature sampleClient ⟨"a", "b"⟩
        (Sha256.hmacSha256Hex sampleClient.clientSecret ("a" ++ "/" ++ "b")) = .ok true
    ∧ verifySignature sampleClient ⟨"a", "b"⟩ "x" = .ok false := by
  have h := signature_round_trip sampleClient "a" "b" (by decide) (by decide)
  refine ⟨h.1, h.2 "x" (by decide) (fun hx => ?_)⟩
  have hlen := Sha256.hmacSha256Hex_length sampleClient.clientSecret ("a" ++ "/" ++ "b")
  rw [← hx] at hlen
  exact absurd hlen (by decide)

end OMPay

namespace OMPay

/-- C3: For every payload with non-empty `orderId`/`paymentId` and non-empty
signature, `verifySignatureOrThrow` returns normally exactly when
`verifySignature` returns true; when it would return false, the thrown
error is the fixed `signatureMismatch` record — code `SIGNATURE_MISMATCH`,
fixed message, no status code, response body or payload-derived detail. -/
theorem verifySignatureOrThrow_spec (c : OMPayClient) (p : SignaturePayload)
    (sig : String) (hO : p.orderId ≠ "") (hP : p.paymentId ≠ "")
    (hs : sig ≠ "") :
    (verifySignatureOrThrow c p sig = .ok () ↔
      verifySignature c p sig = .ok true)
    ∧ (verifySignature c p sig = .ok false →
        verifySignatureOrThrow c p sig = .error signatureMismatch)
    ∧ signatureMismatch =
        { code := .SIGNATURE_MISMATCH
          message := "Payment signature verification failed. The signature does not match."
          statusCode := none, response := none, originalError := none } := by
  have hv : verifySignature c p sig =
      .ok (Sha256.hmacSha256Hex c.clientSecret
        (p.orderId ++ "/" ++ p.paymentId) == sig) := by
    simp [verifySignature, hO, hP, hs]
  cases hb : Sha256.hmacSha256Hex c.clientSecret
      (p.orderId ++ "/" ++ p.paymentId) == sig
  all_goals rw [hb] at hv
  · refine ⟨⟨fun h => ?_, fun h => ?_⟩, fun _ => ?_, rfl⟩
    · simp [verifySignatureOrThrow, hv] at h
    · rw [hv] at h
      simp at h
    · simp [verifySignatureOrThrow, hv]
  · refine ⟨⟨fun _ => hv, fun _ => ?_⟩, fun h => ?_, rfl⟩
    · simp [verifySignatureOrThrow, hv]
    · rw [hv] at h
      simp at h

/-- Witness for C3 at a concrete payload and signature. -/
theorem verifySignatureOrThrow_spec_witness :
    (verifySignatureOrThrow sampleClient ⟨"a", "b"⟩ "x" = .ok () ↔
      verifySignature sampleClient ⟨"a", "b"⟩ "x" = .ok true)
    ∧ (verifySignature sampleClient ⟨"a", "b"⟩ "x" = .ok false →
        verifySignatureOrThrow sampleClient ⟨"a", "b"⟩ "x" =
          .error signatureMismatch)
    ∧ signatureMismatch =
        { code := .SIGNATURE_MISMATCH
          message := "Payment signature verification failed. The signature does not match."
          statusCode := none, response := none, originalError := none } :=
  verifySignatureOrThrow_spec sampleClient ⟨"a", "b"⟩ "x"
    (by decide) (by decide) (by decide)

/-- C8: The `/` separator is not escaped, so any two (validation-passing)
payloads whose canonical messages `orderId/paymentId` coincide as strings
are indistinguishable to `verifySignature`, for every signature string. -/
theorem verifySignature_canonical_collision (c : OMPayClient)
    (p1 p2 : SignaturePayload)
    (h1 : p1.orderId ≠ "") (h2 : p1.paymentId ≠ "")
    (h3 : p2.orderId ≠ "") (h4 : p2.paymentId ≠ "")
    (hmsg : p1.orderId ++ "/" ++ p1.paymentId =
      p2.orderId ++ "/" ++ p2.paymentId) :
    ∀ signature : String,
      verifySignature c p1 signature = verifySignature c p2 signature := by
  intro signature
  simp [verifySignature, h1, h2, h3, h4, hmsg]

/-- Witness for C8 at the example from the claim:
`{orderId := "a", paymentId := "b/c"}` and
`{orderId := "a/b", paymentId := "c"}` share the canonical message. -/
theorem verifySignature_canonical_collision_witness :
    verifySignature sampleClient ⟨"a", "b/c"⟩ "sig0" =
      verifySignature sampleClient ⟨"a/b", "c"⟩ "sig0" :=
  verifySignature_canonical_collision sampleClient ⟨"a", "b/c"⟩ ⟨"a/b", "c"⟩
    (by decide) (by decide) (by decide) (by decide) (by decide) "sig0"

end OMPay

namespace OMPay

/-- C2: `fromAxiosError` classifies every failed call by the documented
decision tree. With a received response: 401/403 give
`AUTHENTICATION_ERROR`, 400/422 give `VALIDATION_ERROR`, any other status
gives `API_ERROR`, each retaining status code, raw body and original
failure. With no response: `"ECONNABORTED"` gives `TIMEOUT_ERROR` (checked
before — i.e. regardless of — the request-sent flag), then a sent request
gives `NETWORK_ERROR`, else `UNKNOWN_ERROR` with the underlying message if
non-empty and a generic fallback otherwise. -/
theorem fromAxiosError_classification (e : AxiosErrorModel) :
    (∀ resp, e.response = some resp →
      ((resp.status = 401 ∨ resp.status = 403 →
          fromAxiosError e =
            { code := .AUTHENTICATION_ERROR
              message := "Authentication failed. Please check your client ID and secret."
              statusCode := some resp.status
              response := resp.data
              originalError := some e })
        ∧ (resp.status = 400 ∨ resp.status = 422 →
            fromAxiosError e =
              { code := .VALIDATION_ERROR
                message := messageFrom resp.data "Validation error occurred"
                statusCode := some resp.status
                response := resp.data
                originalError := some e })
        ∧ (resp.status ≠ 401 → resp.status ≠ 403 →
            resp.status ≠ 400 → resp.status ≠ 422 →
            fromAxiosError e =
              { code := .API_ERROR
                message := messageFrom resp.data
                  ("API error: " ++ toString resp.status)
                statusCode := some resp.status
                response := resp.data
                originalError := some e })))
    ∧ (e.response = none → e.code = some "ECONNABORTED" →
        fromAxiosError e =
          { code := .TIMEOUT_ERROR
            message := "Request timed out"
            statusCode := none, response := none, originalError := some e })
    ∧ (e.response = none → e.code ≠ some "ECONNABORTED" →
        e.hasRequest = true →
        fromAxiosError e =
          { code := .NETWORK_ERROR
            message := "Network error. Please check your internet connection."
            statusCode := none, response := none, originalError := some e })
    ∧ (e.response = none → e.code ≠ some "ECONNABORTED" →
        e.hasRequest = false →
        fromAxiosError e =
          { code := .UNKNOWN_ERROR
            message := if e.message = "" then "An unknown error occurred"
                       else e.message
            statusCode := none, response := none, originalError := some e }) := by
  refine ⟨fun resp hresp => ⟨?_, ?_, ?_⟩, ?_, ?_, ?_⟩
  · rintro (h | h) <;> simp [fromAxiosError, hresp, h]
  · rintro (h | h) <;> simp [fromAxiosError, hresp, h]
  · intro h1 h2 h3 h4
    simp [fromAxiosError, hresp, h1, h2, h3, h4]
  · intro hresp hcode
    simp [fromAxiosError, hresp, hcode]
  · intro hresp hcode hreq
    simp [fromAxiosError, hresp, hcode, hreq]
  · intro hresp hcode hreq
    simp [fromAxiosError, hresp, hcode, hreq]

/-- Witness for C2: a 401 response maps to `AUTHENTICATION_ERROR`, and a
timeout with a sent request still maps to `TIMEOUT_ERROR` (the timeout
branch precedes the no-response branch). -/
theorem fromAxiosError_classification_witness :
    fromAxiosError ⟨some ⟨401, none⟩, none, false, "boom"⟩ =
      { code := .AUTHENTICATION_ERROR
        message := "Authentication failed. Please check your client ID and secret."
        statusCode := some 401
        response := none
        originalError := some ⟨some ⟨401, none⟩, none, false, "boom"⟩ }
    ∧ fromAxiosError ⟨none, some "ECONNABORTED", true, "t"⟩ =
        { code := .TIMEOUT_ERROR
          message := "Request timed out"
          statusCode := none, response := none
          originalError := some ⟨none, some "ECONNABORTED", true, "t"⟩ } :=
  ⟨((fromAxiosError_classification _).1 _ rfl).1 (Or.inl rfl),
   (fromAxiosError_classification _).2.1 rfl rfl⟩

end OMPay

namespace OMPay

/-- C5: `createCheckout` rejects invalid requests synchronously with a
`VALIDATION_ERROR` (the `Except.error` is produced before any payload — and
hence any network call — exists), and the four guards fire in source order:
an invalid amount wins over everything, then a falsy currency, then an
absent customer object, then empty customer fields. -/
theorem createCheckout_validation_order (c : OMPayClient)
    (r : CreateCheckoutRequest) :
    (amountInvalid r.amount = true →
      createCheckout c r = .error
        { code := .VALIDATION_ERROR
          message := "amount must be a positive number" })
    ∧ (amountInvalid r.amount = false → strTruthy r.currency = false →
        createCheckout c r = .error
          { code := .VALIDATION_ERROR
            message := "currency is required and must be a string" })
    ∧ (amountInvalid r.amount = false → strTruthy r.currency = true →
        r.customer = none →
        createCheckout c r = .error
          { code := .VALIDATION_ERROR
            message := "customer information is required" })
    ∧ (∀ cust, amountInvalid r.amount = false → strTruthy r.currency = true →
        r.customer = some cust → customerFieldsInvalid cust = true →
        createCheckout c r = .error
          { code := .VALIDATION_ERROR
            message := "customer phone, email, and name are required" }) := by
  refine ⟨fun h1 => ?_, fun h1 h2 => ?_, fun h1 h2 h3 => ?_,
    fun cust h1 h2 h3 h4 => ?_⟩
  · simp [createCheckout, validateCheckoutRequest, h1]
  · simp [createCheckout, validateCheckoutRequest, h1, h2]
  · simp [createCheckout, validateCheckoutRequest, h1, h2, h3]
  · simp [createCheckout, validateCheckoutRequest, h1, h2, h3, h4]

/-- Witness for C5: a request that violates every guard at once (zero
amount, empty currency, empty customer email) is rejected with the amount
message — the first guard in the order. -/
theorem createCheckout_validation_order_witness :
    createCheckout sampleClient
        ⟨some 0, some "", none, none, some ⟨"+968", "", "A"⟩, none, none⟩ =
      .error { code := .VALIDATION_ERROR
               message := "amount must be a positive number" } :=
  (createCheckout_validation_order sampleClient _).1 (by decide)

end OMPay

namespace OMPay

/-- C6 (amended): for every valid checkout request the POSTed payload is the
flat object with exactly the keys `amount`, `currency`, `uiMode` (defaulted
to `"checkout"` via `??`), `redirectType` (defaulted to `"redirect"`),
`phone`, `email`, `name`, plus `orderReference` exactly when it was provided
*non-empty* (the truthiness-guarded spread drops an empty string), and
`metadata` exactly when it was provided (an object is always truthy). -/
theorem createCheckout_payload_keys (c : OMPayClient)
    (r : CreateCheckoutRequest) (hv : validateCheckoutRequest r = none) :
    createCheckout c r = .ok (buildCheckoutPayload r)
    ∧ (buildCheckoutPayload r).map Prod.fst =
        ["amount", "currency", "uiMode", "redirectType", "phone", "email",
          "name"]
          ++ (if strTruthy r.orderReference then ["orderReference"] else [])
          ++ (if r.metadata.isSome then ["metadata"] else [])
    ∧ ("orderReference" ∈ (buildCheckoutPayload r).map Prod.fst ↔
        ∃ s, r.orderReference = some s ∧ s ≠ "")
    ∧ ("metadata" ∈ (buildCheckoutPayload r).map Prod.fst ↔
        ∃ m, r.metadata = some m)
    ∧ List.lookup "uiMode" (buildCheckoutPayload r) =
        some (PayloadVal.str (r.uiMode.getD "checkout"))
    ∧ List.lookup "redirectType" (buildCheckoutPayload r) =
        some (PayloadVal.str (r.redirectType.getD "redirect"))
    ∧ (∀ a, r.amount = some a →
        List.lookup "amount" (buildCheckoutPayload r) =
          some (PayloadVal.num a))
    ∧ (∀ cur, r.currency = some cur →
        List.lookup "currency" (buildCheckoutPayload r) =
          some (PayloadVal.str cur))
    ∧ (∀ cu, r.customer = some cu →
        List.lookup "phone" (buildCheckoutPayload r) =
          some (PayloadVal.str cu.phone)
        ∧ List.lookup "email" (buildCheckoutPayload r) =
          some (PayloadVal.str cu.email)
        ∧ List.lookup "name" (buildCheckoutPayload r) =
          some (PayloadVal.str cu.name)) := by
  obtain ⟨am, cur, ui, rt, cust, orf, md⟩ := r
  refine ⟨by simp [createCheckout, hv], ?_, ?_, ?_, rfl, rfl, ?_, ?_, ?_⟩
  · rcases orf with _ | s <;> rcases md with _ | m <;>
      simp [buildCheckoutPayload, strTruthy] <;>
      split_ifs <;> simp_all
  · rcases orf with _ | s <;> rcases md with _ | m <;>
      simp [buildCheckoutPayload, strTruthy]
  · rcases orf with _ | s <;> rcases md with _ | m <;>
      simp [buildCheckoutPayload, strTruthy]
  · intro a ha
    subst ha
    rfl
  · intro cu hcu
    subst hcu
    rfl
  · intro cu hcu
    subst hcu
    exact ⟨rfl, rfl, rfl⟩

/-- Witness for C6 at a fully-populated valid request. -/
theorem createCheckout_payload_keys_witness :
    createCheckout sampleClient
        ⟨some 100, some "OMR", none, none,
          some ⟨"+96891234567", "a@b.com", "A"⟩, some "ref-1",
          some [("k", JsonVal.str "v")]⟩ =
      .ok (buildCheckoutPayload
        ⟨some 100, some "OMR", none, none,
          some ⟨"+96891234567", "a@b.com", "A"⟩, some "ref-1",
          some [("k", JsonVal.str "v")]⟩)
    ∧ (buildCheckoutPayload
        ⟨some 100, some "OMR", none, none,
          some ⟨"+96891234567", "a@b.com", "A"⟩, some "ref-1",
          some [("k", JsonVal.str "v")]⟩).map Prod.fst =
      ["amount", "currency", "uiMode", "redirectType", "phone", "email",
        "name"] ++ ["orderReference"] ++ ["metadata"] := by
  have h := createCheckout_payload_keys sampleClient
    ⟨some 100, some "OMR", none, none,
      some ⟨"+96891234567", "a@b.com", "A"⟩, some "ref-1",
      some [("k", JsonVal.str "v")]⟩ (by decide)
  exact ⟨h.1, h.2.1⟩

/-- Counterexample to C6 as stated: a valid request that *provides*
`orderReference` as the empty string, whose payload nevertheless has no
`orderReference` key — "if and only if it was provided" fails. -/
theorem createCheckout_orderReference_dropped_cex :
    (⟨some 100, some "OMR", none, none,
        some ⟨"+96891234567", "a@b.com", "A"⟩, some "",
        none⟩ : CreateCheckoutRequest).orderReference = some ""
    ∧ (createCheckout sampleClient
        ⟨some 100, some "OMR", none, none,
          some ⟨"+96891234567", "a@b.com", "A"⟩, some "", none⟩).map
        (fun pl => (pl.map Prod.fst).contains "orderReference") =
      .ok false := by
  exact ⟨rfl, rfl⟩

end OMPay

namespace OMPay

/-- C4 (amended): on a 2xx body, `checkStatus` returns a result whose
`orderId` is the stringified body `orderId` when the body supplies a
non-nullish one and the input `orderId` otherwise, whose `status` is the
body value copied verbatim under an unchecked cast — so it is one of the
four enumerated values exactly when the body already supplies one — and
whose `data` is the full raw body. -/
theorem checkStatus_mapping (c : OMPayClient) (orderId : String)
    (body : JsonObj) (h : orderId ≠ "") :
    (checkStatus c orderId body).map (fun r => r.orderId) =
      .ok (match getNonNullish body "orderId" with
           | some v => jsToString v
           | none => orderId)
    ∧ (checkStatus c orderId body).map (fun r => r.status) =
        .ok (getProp body "status")
    ∧ (checkStatus c orderId body).map (fun r => r.data) = .ok body
    ∧ (∀ s, getProp body "status" = some (JsonVal.str s) →
        s ∈ (["success", "failed", "pending", "cancelled"] : List String) →
        (checkStatus c orderId body).map (fun r => r.status) =
          .ok (some (JsonVal.str s))) := by
  refine ⟨?_, ?_, ?_, fun s hs _ => ?_⟩
  · simp [checkStatus, h, Except.map]
  · simp [checkStatus, h, Except.map]
  · simp [checkStatus, h, Except.map]
  · simp [checkStatus, h, hs, Except.map]

/-- Witness for C4 at a concrete body that omits `orderId` and carries an
enumerated status. -/
theorem checkStatus_mapping_witness :
    (checkStatus sampleClient "o-1"
        [("status", JsonVal.str "pending")]).map (fun r => r.orderId) =
      .ok "o-1"
    ∧ (checkStatus sampleClient "o-1"
        [("status", JsonVal.str "pending")]).map (fun r => r.status) =
      .ok (some (JsonVal.str "pending")) := by
  have h := checkStatus_mapping sampleClient "o-1"
    [("status", JsonVal.str "pending")] (by decide)
  exact ⟨h.1, h.2.1⟩

/-- Counterexample to C4 as stated: a 2xx body whose `status` is the string
`"weird"` — not one of the four enumerated values — is passed through
unchanged (and a `null` body `orderId` falls back to the input rather than
stringifying to `"null"`). -/
theorem checkStatus_status_unvalidated_cex :
    (checkStatus sampleClient "in-1"
        [("orderId", JsonVal.null), ("status", JsonVal.str "weird")]).map
        (fun r => (r.orderId, r.status)) =
      .ok ("in-1", some (JsonVal.str "weird"))
    ∧ ("weird" ∉ (["success", "failed", "pending", "cancelled"] :
        List String))
    ∧ ("in-1" : String) ≠ "null" := by
  exact ⟨rfl, by decide, by decide⟩

end OMPay

namespace OMPay

/-- C7 (amended): construction succeeds (purely — no network call in the
model) for every configuration with truthy `clientId` and `clientSecret`
and environment absent, `"sandbox"` or `"production"`; the resolved
environment defaults to `"sandbox"` and `getEnvironment`/`getBaseUrl`
return the resolved pair. Construction fails with a `VALIDATION_ERROR` on a
falsy `clientId`, then a falsy `clientSecret`, then a supplied *non-empty*
environment outside the table (an empty-string environment is falsy and
slips past the truthiness guard — see the counterexample). -/
theorem mkClient_spec (cfg : OMPayConfig) :
    (strTruthy cfg.clientId = true → strTruthy cfg.clientSecret = true →
      (cfg.environment = none ∨ cfg.environment = some "sandbox" ∨
        cfg.environment = some "production") →
      ∃ c, mkClient cfg = .ok c
        ∧ getClientId c = cfg.clientId.getD ""
        ∧ c.clientSecret = cfg.clientSecret.getD ""
        ∧ getEnvironment c = cfg.environment.getD "sandbox"
        ∧ (cfg.environment = none → getEnvironment c = "sandbox")
        ∧ (getEnvironment c = "sandbox" →
            getBaseUrl c = some "https://api.uat.gateway.ompay.com")
        ∧ (getEnvironment c = "production" →
            getBaseUrl c = some "https://api.gateway.ompay.com"))
    ∧ (strTruthy cfg.clientId = false →
        mkClient cfg = .error
          { code := .VALIDATION_ERROR
            message := "clientId is required and must be a string" })
    ∧ (strTruthy cfg.clientId = true → strTruthy cfg.clientSecret = false →
        mkClient cfg = .error
          { code := .VALIDATION_ERROR
            message := "clientSecret is required and must be a string" })
    ∧ (∀ e, strTruthy cfg.clientId = true →
        strTruthy cfg.clientSecret = true →
        cfg.environment = some e → e ≠ "" → e ≠ "sandbox" →
        e ≠ "production" →
        mkClient cfg = .error
          { code := .VALIDATION_ERROR
            message := "environment must be either \x27sandbox\x27 or \x27production\x27" }) := by
  refine ⟨fun h1 h2 henv => ?_, fun h1 => ?_, fun h1 h2 => ?_,
    fun e h1 h2 he hne hs hp => ?_⟩
  · have hvc : validateConfig cfg = none := by
      rcases henv with h | h | h <;>
        simp [validateConfig, h1, h2, envOffTable, h]
    refine ⟨{ clientId := cfg.clientId.getD ""
              clientSecret := cfg.clientSecret.getD ""
              environment := cfg.environment.getD "sandbox"
              httpClient :=
                { baseURL :=
                    List.lookup (cfg.environment.getD "sandbox") API_URLS
                  timeout := cfg.timeout.getD DEFAULT_TIMEOUT
                  contentType := "application/json"
                  authUsername := cfg.clientId.getD ""
                  authPassword := cfg.clientSecret.getD "" } },
      ?_, rfl, rfl, rfl, ?_, ?_, ?_⟩
    · simp [mkClient, hvc]
    · intro h
      simp [getEnvironment, h]
    · intro h
      simp only [getEnvironment] at h
      simp [getBaseUrl, h, API_URLS, List.lookup]
    · intro h
      simp only [getEnvironment] at h
      simp [getBaseUrl, h, API_URLS, List.lookup]
  · simp [mkClient, validateConfig, h1]
  · simp [mkClient, validateConfig, h1, h2]
  · simp [mkClient, validateConfig, h1, h2, envOffTable, he, hne, hs, hp]

/-- Witness for C7: a minimal valid configuration constructs, and a missing
`clientId` fails with the validation error. -/
theorem mkClient_spec_witness :
    (mkClient ⟨some "id", some "sec", none, none⟩).isOk = true
    ∧ mkClient ⟨none, some "sec", none, none⟩ =
        .error { code := .VALIDATION_ERROR
                 message := "clientId is required and must be a string" } := by
  obtain ⟨c, hc, -, -, -, -, -, -⟩ :=
    (mkClient_spec ⟨some "id", some "sec", none, none⟩).1
      (by decide) (by decide) (Or.inl rfl)
  refine ⟨?_, (mkClient_spec ⟨none, some "sec", none, none⟩).2.1 (by decide)⟩
  rw [hc]
  rfl

/-- Counterexample to C7 as stated: supplying the environment `""` — a
value other than `"sandbox"`/`"production"` — does *not* fail: the `&&`
truthiness guard skips the membership check for a falsy string, so
construction succeeds (with an undefined base URL). -/
theorem mkClient_empty_environment_cex :
    mkClient ⟨some "id", some "sec", some "", none⟩ =
      .ok { clientId := "id", clientSecret := "sec", environment := ""
            httpClient :=
              { baseURL := none, timeout := 30000
                contentType := "application/json"
                authUsername := "id", authPassword := "sec" } }
    ∧ (some "" : Option String) ≠ none
    ∧ ("" : String) ≠ "sandbox" ∧ ("" : String) ≠ "production" := by
  exact ⟨rfl, by decide, by decide, by decide⟩

end OMPay

namespace OMPay

/-- C9: the `timeout` field is never validated — any configuration passing
the three credential/environment guards constructs successfully whatever
the timeout (zero and negatives included), and the supplied value reaches
the transport configuration unchanged (`?? DEFAULT_TIMEOUT` only fills in
absence). -/
theorem timeout_not_validated (cfg : OMPayConfig)
    (h1 : strTruthy cfg.clientId = true)
    (h2 : strTruthy cfg.clientSecret = true)
    (h3 : envOffTable cfg.environment = false) :
    (mkClient cfg).isOk = true
    ∧ (mkClient cfg).map (fun c => c.httpClient.timeout) =
        .ok (cfg.timeout.getD DEFAULT_TIMEOUT)
    ∧ (∀ t, cfg.timeout = some t →
        (mkClient cfg).map (fun c => c.httpClient.timeout) = .ok t) := by
  have hvc : validateConfig cfg = none := by
    simp [validateConfig, h1, h2, h3]
  refine ⟨?_, ?_, fun t ht => ?_⟩
  · simp [mkClient, hvc, Except.isOk, Except.toBool]
  · simp [mkClient, hvc, Except.map]
  · simp [mkClient, hvc, Except.map, ht]

/-- Witness for C9 at a negative timeout. -/
theorem timeout_not_validated_witness :
    (mkClient ⟨some "id", some "sec", none, some (-7)⟩).map
        (fun c => c.httpClient.timeout) = .ok (-7) :=
  (timeout_not_validated ⟨some "id", some "sec", none, some (-7)⟩
    (by decide) (by decide) (by decide)).2.2 (-7) rfl

/-- C10: the result of `verifySignature` depends only on the constructing
configuration clientSecret and the call arguments — two clients built from
configurations sharing a clientSecret (whatever their clientId, environment
or timeout) agree on every payload/signature pair — and, the model being a
pure function, repeated calls on one client agree trivially. -/
theorem verifySignature_depends_only_on_secret (cfg1 cfg2 : OMPayConfig)
    (c1 c2 : OMPayClient) (h1 : mkClient cfg1 = .ok c1)
    (h2 : mkClient cfg2 = .ok c2)
    (hsec : cfg1.clientSecret = cfg2.clientSecret) :
    (∀ p sig, verifySignature c1 p sig = verifySignature c2 p sig)
    ∧ (∀ p sig, verifySignature c1 p sig = verifySignature c1 p sig) := by
  have e1 : c1.clientSecret = cfg1.clientSecret.getD "" := by
    unfold mkClient at h1
    rcases hv : validateConfig cfg1 with _ | e <;> rw [hv] at h1 <;>
      simp at h1
    rw [← h1]
  have e2 : c2.clientSecret = cfg2.clientSecret.getD "" := by
    unfold mkClient at h2
    rcases hv : validateConfig cfg2 with _ | e <;> rw [hv] at h2 <;>
      simp at h2
    rw [← h2]
  have hcc : c1.clientSecret = c2.clientSecret := by
    rw [e1, e2, hsec]
  exact ⟨fun p sig => by simp [verifySignature, hcc], fun p sig => rfl⟩

/-- Witness for C10: two clients built from configurations differing in
clientId, environment and timeout but sharing the secret agree at a
concrete payload/signature pair. -/
theorem verifySignature_depends_only_on_secret_witness :
    verifySignature
        ⟨"id1", "sec", "sandbox",
          ⟨some "https://api.uat.gateway.ompay.com", 30000,
            "application/json", "id1", "sec"⟩⟩ ⟨"a", "b"⟩ "s"
      = verifySignature
          ⟨"id2", "sec", "production",
            ⟨some "https://api.gateway.ompay.com", 5,
              "application/json", "id2", "sec"⟩⟩ ⟨"a", "b"⟩ "s" :=
  (verifySignature_depends_only_on_secret
    ⟨some "id1", some "sec", some "sandbox", none⟩
    ⟨some "id2", some "sec", some "production", some 5⟩
    _ _ rfl rfl rfl).1 ⟨"a", "b"⟩ "s"

end OMPay
